import Mathlib

/-!
Verification of the name_change repository (src/database.py, src/main.py).

The store (sqlite tables users, groups, user_groups, name_changes) is embedded
as association lists keyed by the tables' primary keys; `datetime.now()`
timestamps are abstracted as `Nat` ticks passed in by the caller; Python
`Optional[str]` / nullable TEXT columns are `Option String`; Python exceptions
are `Except PyErr`.  Each definition mirrors one function of the source,
line references included.
-/

set_option autoImplicit false

/-- Nullable TEXT column / Python optional string. -/
abbrev PyStr := Option String

/-- Python truthiness of an optional string: None and the empty string are
falsy, every other string is truthy. -/
def pyTruthy : PyStr → Bool
  | none => false
  | some s => s ≠ ""

/-- Python str.strip(): drop leading and trailing whitespace characters. -/
def pyStrip (s : String) : String :=
  ⟨((s.data.dropWhile Char.isWhitespace).reverse.dropWhile Char.isWhitespace).reverse⟩

/-- One row of the users table (database.py:106-114): first_name, last_name
and username are nullable TEXT; the two timestamps are both written with
datetime.now() by register_user. -/
structure UserRow where
  first_name : PyStr
  last_name : PyStr
  username : PyStr
  last_updated : Nat
  last_checked : Nat
  deriving DecidableEq

/-- One row of the groups table (database.py:118-124) together with the
is_active column added by migrate_db (database.py:57-59). -/
structure GroupRow where
  group_name : PyStr
  added_at : Nat
  is_active : Bool
  deriving DecidableEq

/-- One row of the user_groups table (database.py:127-138), keyed by the
primary key (user_id, group_id). -/
structure MembershipRow where
  last_seen : Nat
  is_active : Bool
  added_at : Nat
  deriving DecidableEq

/-- One row of the append-only name_changes table (database.py:141-151). -/
structure ChangeRec where
  user_id : Int
  change_type : String
  old_value : PyStr
  new_value : PyStr
  changed_at : Nat
  deriving DecidableEq

/-- The whole persisted store, plus the list of messages actually delivered to
the admin (in order), which stands for the outbound notification channel. -/
structure State where
  users : List (Int × UserRow)
  groups : List (Int × GroupRow)
  userGroups : List ((Int × Int) × MembershipRow)
  nameChanges : List ChangeRec
  notifications : List String
  deriving DecidableEq

def emptyStore : State :=
  { users := [], groups := [], userGroups := [], nameChanges := [], notifications := [] }

/-- Lookup of the row with the given key in an association table. -/
def lookupRow {α β : Type} [DecidableEq α] (t : List (α × β)) (k : α) : Option β :=
  (t.find? (fun p => decide (p.1 = k))).map Prod.snd

/-- INSERT OR REPLACE: the row for the key is replaced, every other row kept. -/
def insertReplace {α β : Type} [DecidableEq α] (t : List (α × β)) (k : α) (v : β) :
    List (α × β) :=
  (k, v) :: t.filter (fun p => decide (p.1 ≠ k))

/-- Python exceptions that the embedded code can raise. -/
inductive PyErr where
  | attributeError
  deriving DecidableEq

/-- The method names the Database class in database.py actually defines
(database.py:9-335).  main.py resolves db.name dynamically, so calling any
name outside this list raises AttributeError. -/
def databaseMethods : List String :=
  ["__init__", "get_connection", "migrate_db", "init_db", "register_user",
   "register_group", "add_user_to_group", "get_user", "get_all_users",
   "get_user_groups", "get_name_changes", "check_name_changes"]

/-- Python attribute lookup on the Database object: a name the class does not
define raises AttributeError. -/
def dbGetAttr (name : String) : Except PyErr String :=
  if name ∈ databaseMethods then .ok name else .error .attributeError

/-- Database.register_user (database.py:159-199).  For an existing row the
first/last comparisons are plain Python != on the raw values; the username
comparison runs only when the passed username is truthy, and in that case it
evaluates existing_user.get, a method sqlite3.Row does not have, so it raises
AttributeError before any INSERT has been executed (the open transaction has
written nothing, so on that error the store is unchanged).  On success it
appends one name_changes row per detected first/last change and then
INSERT OR REPLACEs the whole users row with the passed values. -/
def registerUser (uid : Int) (first last username : PyStr) (t : Nat) (st : State) :
    Except PyErr State :=
  match lookupRow st.users uid with
  | none =>
      .ok { st with users := insertReplace st.users uid ⟨first, last, username, t, t⟩ }
  | some old =>
      let firstRecs : List ChangeRec :=
        if old.first_name ≠ first then [⟨uid, "first_name", old.first_name, first, t⟩] else []
      let lastRecs : List ChangeRec :=
        if old.last_name ≠ last then [⟨uid, "last_name", old.last_name, last, t⟩] else []
      if pyTruthy username then
        .error .attributeError
      else
        .ok { st with
              nameChanges := st.nameChanges ++ firstRecs ++ lastRecs,
              users := insertReplace st.users uid ⟨first, last, username, t, t⟩ }

/-- register_user as its caller sees the store afterwards: on an exception the
transaction has written nothing, so the store is the one passed in. -/
def runRegisterUser (uid : Int) (first last username : PyStr) (t : Nat) (st : State) :
    State × Option PyErr :=
  match registerUser uid first last username t st with
  | .ok st' => (st', none)
  | .error e => (st, some e)

/-- Database.register_group (database.py:201-220): an empty (falsy) name is
rejected with False before any write; otherwise the groups row is replaced
with the stripped name and is_active=1 and the call returns True. -/
def registerGroup (gid : Int) (group_name : String) (t : Nat) (st : State) :
    Bool × State :=
  if group_name = "" then (false, st)
  else
    (true, { st with groups := insertReplace st.groups gid ⟨some (pyStrip group_name), t, true⟩ })

/-- Database.add_user_to_group (database.py:222-236): INSERT OR REPLACE of the
membership row with added_at and last_seen at now and is_active=1. -/
def addUserToGroup (uid gid : Int) (t : Nat) (st : State) : Bool × State :=
  (true, { st with userGroups := insertReplace st.userGroups (uid, gid) ⟨t, true, t⟩ })

/-- The dict Database.get_user returns: the users row plus the change_count
subquery (database.py:243-248). -/
structure UserDict where
  row : UserRow
  change_count : Nat
  deriving DecidableEq

/-- Database.get_user (database.py:238-258).  The persistFail flag stands for
the connection raising inside the try block: the except clause catches it and
returns None (database.py:256-258), the same value as for an unknown user. -/
def getUser (persistFail : Bool) (uid : Int) (st : State) : Option UserDict :=
  if persistFail then none
  else
    match lookupRow st.users uid with
    | none => none
    | some r => some ⟨r, (st.nameChanges.filter (fun c => decide (c.user_id = uid))).length⟩

/-- Database.get_user_groups (database.py:271-291): the groups joined through
a membership row for the user, keeping only rows with ug.is_active,
g.is_active and a non-null group_name. -/
def getUserGroups (uid : Int) (st : State) : List (Int × GroupRow) :=
  st.groups.filter (fun g =>
    g.2.is_active && g.2.group_name.isSome &&
      st.userGroups.any (fun m => decide (m.1 = (uid, g.1)) && m.2.is_active))

/-- The current_data dict main.py builds and Database.check_name_changes
compares against the stored row. -/
structure CurrentData where
  first_name : PyStr
  last_name : PyStr
  deriving DecidableEq

/-- The dict Database.check_name_changes returns: at most one (old, new) pair
per compared attribute. -/
structure NameChangesDict where
  firstChange : Option (PyStr × PyStr)
  lastChange : Option (PyStr × PyStr)
  deriving DecidableEq

def emptyChanges : NameChangesDict := ⟨none, none⟩

/-- Database.check_name_changes (database.py:309-335).  It reads the stored
row through get_user — which swallows a persistence failure into None — and
returns the empty dict when that is None (database.py:313-315); otherwise it
compares first_name and last_name with plain Python != on the raw values:
no trimming, and an unset (None) value is a different value from the empty
string.  Only those two attributes are compared. -/
def dbCheckNameChanges (persistFail : Bool) (uid : Int) (cur : CurrentData) (st : State) :
    NameChangesDict :=
  match getUser persistFail uid st with
  | none => emptyChanges
  | some old =>
      { firstChange :=
          if old.row.first_name ≠ cur.first_name then
            some (old.row.first_name, cur.first_name)
          else none,
        lastChange :=
          if old.row.last_name ≠ cur.last_name then
            some (old.row.last_name, cur.last_name)
          else none }

/-- The telethon User object fields main.py reads. -/
structure UserObj where
  id : Int
  first_name : PyStr
  last_name : PyStr
  username : PyStr
  deriving DecidableEq

/-- How one call of main.py's check_name_changes ends. -/
inductive MainOutcome where
  | earlyReturn
  | errorLogged
  | unreachableOk
  deriving DecidableEq

/-- main.py check_name_changes (main.py:160-231).  After the falsy-user guard
(main.py:163-164), its first store access, main.py:167, looks up
db.get_user_active_groups; the Database class defines no such method (see
databaseMethods), so Python raises AttributeError at that lookup, the generic
handler at main.py:230-231 logs it, and the call returns with the store and
the notification list untouched.  The rest of the try block is unreachable
and the class gives it no semantics, which the unreachableOk branch records. -/
def checkNameChangesMain (user : Option UserObj) (st : State) : State × MainOutcome :=
  match user with
  | none => (st, .earlyReturn)
  | some _ =>
      match dbGetAttr "get_user_active_groups" with
      | .error _ => (st, .errorLogged)
      | .ok _ => (st, .unreachableOk)

/-- A batch of check_name_changes calls, one per user object, run one after
the other against the store (each single call touches the store atomically or
not at all, so this also covers every interleaving of concurrent calls). -/
def runCalls (users : List UserObj) (st : State) : State × List MainOutcome :=
  match users with
  | [] => (st, [])
  | u :: rest =>
      let r := checkNameChangesMain (some u) st
      let rr := runCalls rest r.1
      (rr.1, r.2 :: rr.2)

/-- How the leave branch of handle_group_events ends. -/
inductive LeaveOutcome where
  | errorLogged
  | unreachableOk
  deriving DecidableEq

/-- The user_left/user_kicked branch of handle_group_events (main.py:299-314):
it calls db.remove_user_from_group, a method the Database class does not
define, so AttributeError is raised at the lookup and caught at
main.py:312-313; the membership row is not touched and notify_user_left is
never reached. -/
def handleLeaveEvent (uid gid : Int) (st : State) : State × LeaveOutcome :=
  match dbGetAttr "remove_user_from_group" with
  | .error _ => (st, .errorLogged)
  | .ok _ => (st, .unreachableOk)

/-- The user_joined/user_added branch of handle_group_events (main.py:316-331):
registers the user — username passed as `user.username or ""` — and then
upserts the membership row, sending nothing to the admin.  If register_user
raises, the handler at main.py:342-343 catches it and add_user_to_group is
not reached. -/
def handleJoinEvent (u : UserObj) (gid : Int) (t : Nat) (st : State) : State :=
  match registerUser u.id u.first_name (some (u.last_name.getD ""))
      (some (u.username.getD "")) t st with
  | .error _ => st
  | .ok st' => (addUserToGroup u.id gid t st').2

/-- Result of the single delivery attempt inside send_to_admin. -/
inductive SendAttempt where
  | success
  | floodWait (seconds : Nat)
  | otherFailure
  deriving DecidableEq

/-- What a send_to_admin call did: how many delivery attempts it made and
whether the notification was delivered. -/
structure SendOutcome where
  attempts : Nat
  delivered : Bool
  deriving DecidableEq

/-- The message frame send_to_admin builds (main.py:149-154). -/
def formatNotification (message : String) : String :=
  "🔔 Name Change Notification\n" ++
  "━━━━━━━━━━━━━━━━━━━━━━\n" ++
  message ++ "\n" ++
  "━━━━━━━━━━━━━━━━━━━━━━"

/-- send_to_admin (main.py:146-158): it formats the message and makes exactly
one delivery attempt; its except clause catches every exception —
FloodWaitError included — logging and dropping the notification.  There is no
retry of any kind inside this function. -/
def sendToAdmin (message : String) (attempt : SendAttempt) (st : State) :
    State × SendOutcome :=
  match attempt with
  | .success =>
      ({ st with notifications := st.notifications ++ [formatNotification message] },
       ⟨1, true⟩)
  | .floodWait _ => (st, ⟨1, false⟩)
  | .otherFailure => (st, ⟨1, false⟩)

/-- The commit at main.py:204-211: once deltas were detected, the whole users
row is rewritten via db.register_user with first_name=user.first_name,
last_name=user.last_name or "", and username left at its default None. -/
def commitNameChange (u : UserObj) (t : Nat) (st : State) : State × Option PyErr :=
  runRegisterUser u.id u.first_name (some (u.last_name.getD "")) none t st

/-- Concrete stores and user objects for the closed theorems below. -/
def c1Store : State :=
  { users := [(1, ⟨none, some "Kim", some "alice", 0, 0⟩),
              (3, ⟨some "A", some "B", none, 0, 0⟩)],
    groups := [], userGroups := [], nameChanges := [], notifications := [] }

def u2 : UserObj := ⟨2, some "Alex", some "Kim", none⟩

def c2Store : State :=
  { users := [(2, ⟨some "Alex", some "Kim", none, 0, 0⟩)],
    groups := [(7, ⟨some "G", 0, true⟩)],
    userGroups := [((2, 7), ⟨0, true, 0⟩)],
    nameChanges := [], notifications := [] }

def u5 : UserObj := ⟨5, some "New", none, none⟩

def c5Store : State :=
  { users := [], groups := [(7, ⟨some "G", 0, true⟩)],
    userGroups := [((5, 7), ⟨0, true, 0⟩)],
    nameChanges := [], notifications := [] }

def c6Store : State :=
  { users := [(9, ⟨some "U", some "", none, 0, 0⟩)],
    groups := [(3, ⟨some "Grp", 0, true⟩)],
    userGroups := [((9, 3), ⟨0, true, 0⟩)],
    nameChanges := [], notifications := [] }

def c8Store : State :=
  { users := [(4, ⟨some "A", some "B", none, 0, 0⟩)],
    groups := [], userGroups := [], nameChanges := [], notifications := [] }

def c9Store : State :=
  { users := [], groups := [(5, ⟨some "Real Group", 0, true⟩)],
    userGroups := [], nameChanges := [], notifications := [] }

def u10 : UserObj := ⟨11, some "Alexis", some "Kim", none⟩

def c10Store : State :=
  { users := [(11, ⟨some "Alex", some "Kim", some "alexk", 0, 0⟩)],
    groups := [], userGroups := [], nameChanges := [], notifications := [] }

theorem lookupRow_insertReplace {α β : Type} [DecidableEq α]
    (t : List (α × β)) (k : α) (v : β) :
    lookupRow (insertReplace t k v) k = some v := by
  simp [lookupRow, insertReplace, List.find?]

theorem checkMain_eq (u : UserObj) (st : State) :
    checkNameChangesMain (some u) st = (st, MainOutcome.errorLogged) := rfl

/-- C1 counterexample: a stored null first name against an observed empty
first name produces a delta (the claim says it must not), and a stored
non-empty username against an absent observed username produces no username
record at all in register_user (the claim says it must); moreover a stored
"A" against an observed "A " produces a delta even though the values agree
after trimming. -/
theorem dbCheckNameChanges_no_normalization_cex :
    (dbCheckNameChanges false 1 ⟨some "", some "Kim"⟩ c1Store).firstChange
      = some (none, some "") ∧
    ((runRegisterUser 1 (some "A") (some "Kim") none 0 c1Store).1.nameChanges.filter
      (fun c => decide (c.change_type = "username"))) = [] ∧
    (dbCheckNameChanges false 3 ⟨some "A ", some "B"⟩ c1Store).firstChange
      = some (some "A", some "A ") := by
  refine ⟨rfl, ?_, rfl⟩
  decide

/-- C1 amended: a first/last-name delta is emitted exactly when the stored row
exists and the stored value differs from the observed one under plain
equality — no trimming, and an unset (null) value is a different value from
the empty string — and register_user never records a username change row: an
absent or empty observed username skips the comparison entirely, while a
non-empty one aborts with AttributeError before any row is written. -/
theorem dbCheckNameChanges_plain_inequality (uid : Int) (cur : CurrentData) (st : State) :
    ((dbCheckNameChanges false uid cur st).firstChange.isSome ↔
      ∃ d, getUser false uid st = some d ∧ d.row.first_name ≠ cur.first_name) ∧
    ((dbCheckNameChanges false uid cur st).lastChange.isSome ↔
      ∃ d, getUser false uid st = some d ∧ d.row.last_name ≠ cur.last_name) ∧
    (∀ (first last username : PyStr) (t : Nat),
      ((runRegisterUser uid first last username t st).1.nameChanges.filter
        (fun c => decide (c.change_type = "username"))) =
      st.nameChanges.filter (fun c => decide (c.change_type = "username"))) := by
  refine ⟨?_, ?_, ?_⟩
  · cases h : getUser false uid st with
    | none => simp [dbCheckNameChanges, h, emptyChanges]
    | some d =>
        by_cases hne : d.row.first_name = cur.first_name <;>
          simp [dbCheckNameChanges, h, hne]
  · cases h : getUser false uid st with
    | none => simp [dbCheckNameChanges, h, emptyChanges]
    | some d =>
        by_cases hne : d.row.last_name = cur.last_name <;>
          simp [dbCheckNameChanges, h, hne]
  · intro first last username t
    unfold runRegisterUser registerUser
    cases h : lookupRow st.users uid with
    | none => simp
    | some old =>
        cases hu : pyTruthy username with
        | true => simp [hu]
        | false =>
            simp only [hu, Bool.false_eq_true, if_false]
            simp [List.filter_append]

/-- C2 (code bug): user 2 is stored at exactly the observed snapshot, yet the
call exits through the exception branch — AttributeError at the
db.get_user_active_groups lookup — with the store and notifications
untouched; the no-change branch of the function is never reached. -/
theorem checkNameChangesMain_fixpoint_errors :
    checkNameChangesMain (some u2) c2Store = (c2Store, .errorLogged) ∧
    dbCheckNameChanges false 2 ⟨u2.first_name, some (u2.last_name.getD "")⟩ c2Store
      = emptyChanges := by
  exact ⟨rfl, rfl⟩

/-- C3 (code bug): any number of reconciliation calls for any users, in any
serialization, leave the store untouched and all end in the logged-error
outcome: no call ever produces a Changed/Registered commit or a NoChange
return, and no ChangeRecord row is ever appended. -/
theorem runCalls_all_errorLogged (users : List UserObj) (st : State) :
    runCalls users st = (st, users.map fun _ => MainOutcome.errorLogged) := by
  induction users generalizing st with
  | nil => rfl
  | cons u rest ih => simp [runCalls, checkMain_eq, ih]

/-- C4: for every user object and every store, check_name_changes raises
AttributeError at its first store access — db.get_user_active_groups is not
among the methods the Database class defines — the handler logs it, and the
call completes with no write, no registration and no notification: the store
is returned exactly as it was. -/
theorem checkNameChangesMain_attributeError (u : UserObj) (st : State) :
    checkNameChangesMain (some u) st = (st, MainOutcome.errorLogged) ∧
    "get_user_active_groups" ∉ databaseMethods := by
  exact ⟨rfl, by decide⟩

/-- C5 (code bug): user 5 has no stored users row and is active in group 7,
yet the reconciliation path neither registers them nor notifies anyone: it
exits through the exception branch with the store unchanged, so the users
lookup still returns none afterwards and the notification list stays empty. -/
theorem checkNameChangesMain_no_registration :
    checkNameChangesMain (some u5) c5Store = (c5Store, .errorLogged) ∧
    lookupRow (checkNameChangesMain (some u5) c5Store).1.users 5 = none ∧
    (checkNameChangesMain (some u5) c5Store).1.notifications = [] := by
  exact ⟨rfl, rfl, rfl⟩

/-- C6 (code bug): a leave event for (9, 3) raises AttributeError at the
db.remove_user_from_group lookup — the class defines no such method — so the
membership row keeps is_active=true and the active-group query still returns
group 3, where the claim requires the flag cleared and the group excluded. -/
theorem handleLeaveEvent_no_deactivation :
    handleLeaveEvent 9 3 c6Store = (c6Store, .errorLogged) ∧
    (getUserGroups 9 (handleLeaveEvent 9 3 c6Store).1).map Prod.fst = [3] ∧
    "remove_user_from_group" ∉ databaseMethods := by
  refine ⟨rfl, ?_, by decide⟩
  decide

/-- C7 counterexample: a rate-limited delivery attempt is dropped after the
single attempt — one attempt in total and nothing delivered — whereas the
claim requires a retry, i.e. a second attempt after the signaled wait. -/
theorem sendToAdmin_floodWait_no_retry_cex :
    (sendToAdmin "msg" (.floodWait 30) emptyStore).2 = ⟨1, false⟩ ∧
    (sendToAdmin "msg" (.floodWait 30) emptyStore).2.attempts ≠ 2 := by
  exact ⟨rfl, by decide⟩

/-- C7 amended: every delivery failure, rate-limit included, is logged and
dropped after exactly one attempt; no notification is ever retried, and a
notification reaches the admin exactly when the single attempt succeeds. -/
theorem sendToAdmin_single_attempt (message : String) (attempt : SendAttempt) (st : State) :
    (sendToAdmin message attempt st).2.attempts = 1 ∧
    ((sendToAdmin message attempt st).2.delivered ↔ attempt = .success) ∧
    (sendToAdmin message attempt st).1.notifications =
      (if attempt = .success then st.notifications ++ [formatNotification message]
       else st.notifications) := by
  cases attempt <;> simp [sendToAdmin]

/-- C8 counterexample: with the persistence layer failing, get_user on the
registered user 4 reports none — the very value it reports for an
unregistered user — and check_name_changes on an observation that differs
from the stored row reports the empty dict — the very value it reports for an
identical snapshot: the failure is not distinguishable from success. -/
theorem persistenceFailure_masked_cex :
    getUser true 4 c8Store = none ∧
    getUser false 4 emptyStore = none ∧
    dbCheckNameChanges true 4 ⟨some "X", some "Y"⟩ c8Store = emptyChanges ∧
    dbCheckNameChanges false 4 ⟨some "A", some "B"⟩ c8Store = emptyChanges := by
  exact ⟨rfl, rfl, rfl, rfl⟩

/-- C8 amended: a persistence failure is swallowed, not surfaced: get_user
then returns none for every user — indistinguishable from "unregistered" —
and check_name_changes returns the empty change dict for every observation —
indistinguishable from "no change". -/
theorem persistenceFailure_swallowed (uid : Int) (cur : CurrentData) (st : State) :
    getUser true uid st = none ∧
    dbCheckNameChanges true uid cur st = emptyChanges := by
  exact ⟨rfl, rfl⟩

/-- C9 counterexample: a whitespace-only name passes the emptiness guard, the
call succeeds, and the stored name of group 5 — previously "Real Group" —
becomes the empty string: the persisted group name IS overwritten with an
empty value by a register_group call. -/
theorem registerGroup_whitespace_overwrites_cex :
    (registerGroup 5 " " 3 c9Store).1 = true ∧
    lookupRow (registerGroup 5 " " 3 c9Store).2.groups 5 = some ⟨some "", 3, true⟩ := by
  refine ⟨rfl, ?_⟩
  decide

/-- C9 amended: an empty name is rejected with a failure outcome and the store
is not modified, but any nonempty name — whitespace-only included — is
accepted and its stripped value stored, so the persisted group name can still
be overwritten with the empty string. -/
theorem registerGroup_empty_guard (gid : Int) (t : Nat) (st : State) :
    registerGroup gid "" t st = (false, st) ∧
    ∀ name : String, name ≠ "" →
      (registerGroup gid name t st).1 = true ∧
      lookupRow (registerGroup gid name t st).2.groups gid
        = some ⟨some (pyStrip name), t, true⟩ := by
  refine ⟨rfl, ?_⟩
  intro name h
  rw [registerGroup, if_neg h]
  exact ⟨rfl, lookupRow_insertReplace ..⟩

/-- Witness for the amended C9 at the name " x ": accepted, and the stored
name is the stripped value. -/
theorem registerGroup_empty_guard_witness :
    (registerGroup 8 " x " 1 emptyStore).1 = true ∧
    lookupRow (registerGroup 8 " x " 1 emptyStore).2.groups 8
      = some ⟨some (pyStrip " x "), 1, true⟩ :=
  (registerGroup_empty_guard 8 1 emptyStore).2 " x " (by decide)

/-- C10: committing a detected first/last-name change rewrites the whole users
row through register_user with username at its default None, so a stored
non-null username is replaced by NULL: no field beyond the observed name
attributes is preserved across the commit. -/
theorem commitNameChange_nulls_username (u : UserObj) (t : Nat) (st : State)
    (old : UserRow) (hold : lookupRow st.users u.id = some old)
    (hu : old.username ≠ none) :
    lookupRow (commitNameChange u t st).1.users u.id
      = some ⟨u.first_name, some (u.last_name.getD ""), none, t, t⟩ := by
  unfold commitNameChange runRegisterUser registerUser
  rw [hold]
  simp [pyTruthy, lookupRow_insertReplace]

/-- Witness for C10: user 11 is stored with username "alexk"; after the commit
the stored username is None. -/
theorem commitNameChange_nulls_username_witness :
    lookupRow (commitNameChange u10 4 c10Store).1.users 11
      = some ⟨some "Alexis", some "Kim", none, 4, 4⟩ :=
  commitNameChange_nulls_username u10 4 c10Store
    ⟨some "Alex", some "Kim", some "alexk", 0, 0⟩ rfl (by decide)
